import Mathlib

/-!
Verification of `beamforming_eval/src/beam_eval/evaluation.py`
(class `BeamformingEvaluation`).

The module is a shallow embedding of the Python source.  Signal samples are
modelled as integers: the only arithmetic the source ever performs on sample
values is subtraction of and addition with the Python integer `0` (the value
returned by the `_projection` stub), which is exact, so no floating-point
behaviour is lost.

Dynamic Python values that flow through the class are modelled by `PyVal`
(a Python `int` scalar, a one-dimensional `pd.Series`, or a two-dimensional
`pd.DataFrame` stored as a list of columns).  Fallible Python evaluation is
modelled with `Except PyError`.
-/

set_option autoImplicit false

namespace BeamEval

/-- The dynamic values that flow through `BeamformingEvaluation`:
a Python `int` scalar, a `pd.Series` (list of samples), or a
`pd.DataFrame` (list of columns, each a list of samples). -/
inductive PyVal where
  | int : Int → PyVal
  | series : List Int → PyVal
  | frame : List (List Int) → PyVal
deriving DecidableEq, Repr

/-- The exceptions relevant to this module.  `pandasIndexError` stands for the
exception `pd.DataFrame.__getitem__` raises on a tuple-of-slices key
(`InvalidIndexError` / `TypeError`, depending on the pandas version);
`typeError` for subscripting the class object `pd.Series`; `valueError` for
`bool()` of a Series ("truth value of a Series is ambiguous");
`attributeError` for a missing attribute.  `dimensionError` is the error the
specification prescribes; the source defines and raises no such error, and we
prove it never occurs. -/
inductive PyError where
  | pandasIndexError : PyError
  | typeError : PyError
  | valueError : PyError
  | attributeError : PyError
  | dimensionError : PyError
deriving DecidableEq, Repr

/-- Python `x + y` on the value shapes that can occur here, with pandas
broadcasting: int+int, scalar broadcast over a Series, and elementwise
Series+Series on equal-length series with the default range index.
Combinations the source cannot produce (frames, misaligned series) are left
undefined (`none`). -/
def pyAdd : PyVal → PyVal → Option PyVal
  | .int a, .int b => some (.int (a + b))
  | .int a, .series s => some (.series (s.map (fun x => a + x)))
  | .series s, .int b => some (.series (s.map (fun x => x + b)))
  | .series s, .series t =>
      if s.length = t.length then some (.series (List.zipWith (fun x y => x + y) s t)) else none
  | _, _ => none

/-- Python `x - y`, same shapes as `pyAdd`. -/
def pySub : PyVal → PyVal → Option PyVal
  | .int a, .int b => some (.int (a - b))
  | .int a, .series s => some (.series (s.map (fun x => a - x)))
  | .series s, .int b => some (.series (s.map (fun x => x - b)))
  | .series s, .series t =>
      if s.length = t.length then some (.series (List.zipWith (fun x y => x - y) s t)) else none
  | _, _ => none

/-- Python truthiness `bool(x)`.  `bool()` of a `pd.Series` or `pd.DataFrame`
raises `ValueError: The truth value of a Series is ambiguous`. -/
def pyBool : PyVal → Except PyError Bool
  | .int n => .ok (n != 0)
  | .series _ => .error .valueError
  | .frame _ => .error .valueError

/-- The state an instance of `BeamformingEvaluation` would hold after
`__init__` (the fields read by the four property getters).  `input_signal`
and `noise` are one-column frames produced by `.to_frame()`;
`interference` is a frame given as columns. -/
structure BeamState where
  max_len : Nat
  input_signal : List (List Int)
  estimated : List Int
  interference : List (List Int)
  noise : List (List Int)
deriving DecidableEq, Repr

namespace BeamformingEvaluation

/-- `BeamformingEvaluation._projection(signal, subspace)`.  The source body is
the single statement `return 0`: the Python integer `0`, for every signal and
every subspace, despite the docstring promising the orthogonal projection. -/
def projection (signal : PyVal) (subspace : PyVal) : PyVal :=
  .int 0

/-- Line 62 of `__init__`: `interference[:self.max_len, :]`.
`pd.DataFrame.__getitem__` receives the tuple key
`(slice(None, max_len), slice(None, None))`; a DataFrame accepts only a plain
slice, a column label, or a list of labels there, and rejects a tuple of
slices with an exception, for every DataFrame and every `max_len`. -/
def dfGetitemTupleKey (interference : List (List Int)) (max_len : Nat) :
    Except PyError (List (List Int)) :=
  .error .pandasIndexError

/-- Line 63 of `__init__`: `self.noise = noise[:self.max_len].to_frame()`.
When the caller omits `noise`, its default (line 42) is the class object
`pd.Series` itself, not a Series instance, and subscripting the class raises
`TypeError`; a provided Series is truncated positionally and made a
one-column frame. -/
def noiseToFrame (noise : Option (List Int)) (max_len : Nat) :
    Except PyError (List (List Int)) :=
  match noise with
  | some s => .ok [s.take max_len]
  | none => .error .typeError

/-- `BeamformingEvaluation.__init__`.  `noise = none` models the omitted
argument (whose default is the class object `pd.Series`); an omitted
`interference` is the empty DataFrame `[]`.  The assignments are performed in
source order; the first raising statement aborts construction. -/
def init (estimated_source : List Int) (real_source : List Int)
    (interference : List (List Int)) (noise : Option (List Int)) :
    Except PyError BeamState := do
  let max_len := estimated_source.length
  let input_signal := [real_source.take max_len]
  let estimated := estimated_source
  let interference ← dfGetitemTupleKey interference max_len
  let noiseFrame ← noiseToFrame noise max_len
  .ok { max_len := max_len, input_signal := input_signal, estimated := estimated,
        interference := interference, noise := noiseFrame }

/-- The value computed by the `s_target` getter body:
`self._projection(self.estimated, self.input_signal)`. -/
def s_targetVal (st : BeamState) : PyVal :=
  projection (.series st.estimated) (.frame st.input_signal)

/-- The value computed by the `e_interf` getter body:
`all_inputs = pd.concat([self.input_signal, self.interference], axis=1)`
followed by `self._projection(self.input_signal, all_inputs) - self.s_target`. -/
def e_interfVal (st : BeamState) : Option PyVal :=
  let all_inputs := st.input_signal ++ st.interference
  pySub (projection (.frame st.input_signal) (.frame all_inputs)) (s_targetVal st)

/-- The value computed by the `e_noise` getter body:
`noised_inputs = pd.concat([self.input_signal, self.interference, self.noise], axis=1)`,
`noise_projection = self._projection(self.input_signal, noised_inputs)`,
result `noise_projection - (self.e_interf + self.s_target)`. -/
def e_noiseVal (st : BeamState) : Option PyVal := do
  let noised_inputs := st.input_signal ++ st.interference ++ st.noise
  let noise_projection := projection (.frame st.input_signal) (.frame noised_inputs)
  let explained ← pyAdd (← e_interfVal st) (s_targetVal st)
  pySub noise_projection explained

/-- The value computed by the `e_artif` getter body:
`self.estimated - (self.e_noise + self.e_interf + self.s_target)`
(Python `+` is left-associative). -/
def e_artifVal (st : BeamState) : Option PyVal := do
  let a ← pyAdd (← e_noiseVal st) (← e_interfVal st)
  let b ← pyAdd a (s_targetVal st)
  pySub (.series st.estimated) b

/-- One evaluation of the `s_target` property over the cache field
`self._s_target` (`none` models Python `None`).  The body is
`if not self._s_target: self._s_target = self._projection(...)`, then
`return self._s_target`.  Returns the result, the new cache, and whether the
projection was recomputed on this access. -/
def s_target_access (st : BeamState) (cache : Option PyVal) :
    Except PyError (PyVal × Option PyVal × Bool) :=
  match cache with
  | none =>
      let v := s_targetVal st
      .ok (v, some v, true)
  | some v => do
      if (← pyBool v) then
        .ok (v, some v, false)
      else
        let v2 := s_targetVal st
        .ok (v2, some v2, true)

/-- The names of the `@property` accessors defined on the
`BeamformingEvaluation` class in the source. -/
def propertyNames : List String :=
  ["s_target", "e_interf", "e_noise", "e_artif"]

/-- The instance attributes assigned in `__init__`, in source order. -/
def fieldNames : List String :=
  ["_e_artif", "_e_noise", "_e_interf", "_s_target", "max_len", "noise",
   "input_signal", "estimated", "interference"]

/-- Attribute lookup on a `BeamformingEvaluation` instance: defined for the
fields assigned in `__init__`, the properties, and the `_projection` method;
any other name raises `AttributeError`. -/
def getattr (name : String) : Except PyError Unit :=
  if name ∈ fieldNames ∨ name ∈ propertyNames ∨ name = "_projection" then .ok ()
  else .error .attributeError

/-- The decomposition sum the specification asserts,
`target + interference_error + noise_error + artifact_error`, evaluated with
Python left-associative `+` over the values of the getters. -/
def decompositionSum (st : BeamState) : Option PyVal := do
  let a ← pyAdd (s_targetVal st) (← e_interfVal st)
  let b ← pyAdd a (← e_noiseVal st)
  pyAdd b (← e_artifVal st)

end BeamformingEvaluation

/-- A sample instance state: the fields an instance would hold for
`estimated = [3, 4]`, `real_source = [3, 4]`, no interference columns and a
zero noise column. -/
def demoState : BeamState :=
  { max_len := 2, input_signal := [[3, 4]], estimated := [3, 4],
    interference := [], noise := [[0, 0]] }

theorem map_sub_zero (l : List Int) : l.map (fun x => x - 0) = l := by
  simp

theorem map_zero_add (l : List Int) : l.map (fun x => 0 + x) = l := by
  simp

open BeamformingEvaluation

/-- A zero-column-interference instance state: the fields an instance would
hold for `estimated = [1, 2]`, `real_source = [1, 2]`, an interference matrix
with zero columns and noise `[7, 7]`. -/
def zeroInterfState : BeamState :=
  { max_len := 2, input_signal := [[1, 2]], estimated := [1, 2],
    interference := [], noise := [[7, 7]] }

/-- The instance state the truncation scenario intends: `estimated = [1, 2]`
(M = 2), `real_source = [1, 2, 3]` truncated to its first two samples, zero
interference columns and noise `[5, 5]`. -/
def truncState : BeamState :=
  { max_len := 2, input_signal := [[1, 2]], estimated := [1, 2],
    interference := [], noise := [[5, 5]] }

/-- Claim C1: the claim says `_projection` returns the orthogonal projection
`B (BᵗB)⁻¹ Bᵗ · signal`, a vector of length M.  The source body is
`return 0`: at signal `[1]` and the single-column basis `[[1]]` (whose
orthogonal projection of the signal onto its own span is `[1]`), the code
returns the Python scalar `0`, not the vector `[1]`. -/
theorem c1_projection_returns_scalar_zero :
    projection (.series [1]) (.frame [[1]]) = .int 0 ∧
    projection (.series [1]) (.frame [[1]]) ≠ .series [1] := by
  refine ⟨rfl, ?_⟩
  decide

/-- Claim C2: the four derived component values sum, with Python
left-associative `+`, to exactly the estimated signal, for every instance
state (`s_target`, `e_interf` and `e_noise` all evaluate to the scalar `0`
and `e_artif` to `estimated - 0`, so the sum is `estimated`). -/
theorem c2_decomposition_identity (st : BeamState) :
    decompositionSum st = some (.series st.estimated) := by
  have h : decompositionSum st
      = some (PyVal.series ((st.estimated.map (fun x => x - 0)).map (fun x => 0 + x))) := rfl
  rw [h, map_sub_zero, map_zero_add]

/-- Claim C2 witness: the decomposition identity evaluated on a concrete
instance state. -/
theorem c2_decomposition_identity_witness :
    decompositionSum demoState = some (.series [3, 4]) :=
  c2_decomposition_identity demoState

/-- Claim C3: every call to `__init__` raises before completing: line 62
indexes the interference DataFrame with the tuple key `(slice, slice)`,
which pandas rejects, for every combination of arguments; moreover line 63
could not succeed either when `noise` is omitted, because the default is the
class object `pd.Series`. -/
theorem c3_init_always_raises :
    (∀ (est rs : List Int) (interf : List (List Int)) (noise : Option (List Int)),
        init est rs interf noise = .error .pandasIndexError) ∧
    (∀ n : Nat, noiseToFrame none n = .error .typeError) :=
  ⟨fun _ _ _ _ => rfl, fun _ => rfl⟩

/-- Claim C4: constructing with `real_source = [0]` shorter than
`estimated = [0, 0]` does not raise `DimensionError`: construction fails
with the pandas tuple-indexing error of line 62 (the source contains no
length check and no `DimensionError`). -/
theorem c4_short_real_source_no_dimension_error :
    init [0, 0] [0] [] none = .error .pandasIndexError ∧
    PyError.pandasIndexError ≠ PyError.dimensionError := by
  refine ⟨rfl, ?_⟩
  decide

/-- Claim C5: the class defines no `SDR`, `SIR`, `SNR` or `SAR` accessor
(its only properties are `s_target`, `e_interf`, `e_noise`, `e_artif`),
although its docstring lists the four metrics; attribute access on any of
the four metric names raises `AttributeError`. -/
theorem c5_metric_accessors_missing :
    getattr "SDR" = .error .attributeError ∧
    getattr "SIR" = .error .attributeError ∧
    getattr "SNR" = .error .attributeError ∧
    getattr "SAR" = .error .attributeError :=
  ⟨rfl, rfl, rfl, rfl⟩

/-- Claim C6: the memoization guard `if not self._s_target:` re-fires on the
falsy cached value: the first access computes the projection and stores the
scalar `0`, and the second access, whose cache holds `0`, recomputes again
(third component `true` = the body recomputed on this access), contradicting
"computed at most once". -/
theorem c6_second_access_recomputes :
    s_target_access demoState none = .ok (.int 0, some (.int 0), true) ∧
    s_target_access demoState (some (.int 0)) = .ok (.int 0, some (.int 0), true) :=
  ⟨rfl, rfl⟩

/-- Claim C7: on an instance state with a zero-column interference matrix
and M = 2, `e_interf` evaluates to the Python scalar `0`, not to any
`pd.Series` — in particular not to the zero vector `[0, 0]` of length M. -/
theorem c7_zero_interference_not_zero_vector :
    e_interfVal zeroInterfState = some (.int 0) ∧
    ∀ l : List Int, e_interfVal zeroInterfState ≠ some (.series l) := by
  refine ⟨rfl, ?_⟩
  intro l h
  simp [e_interfVal, zeroInterfState, s_targetVal, projection, pySub] at h

/-- Claim C8: constructing with `estimated = [1]`, `real_source = [1]` and
the noise argument omitted does not succeed: line 62 raises the pandas
tuple-indexing error, and the default of the omitted noise, the class object
`pd.Series`, would make line 63 raise `TypeError` as well. -/
theorem c8_omitted_noise_construction_fails :
    init [1] [1] [] none = .error .pandasIndexError ∧
    noiseToFrame none 1 = .error .typeError :=
  ⟨rfl, rfl⟩

/-- Claim C9: with `estimated` of length 2 and `real_source` of length 3,
construction raises at line 62, so no truncated instance exists; and even on
the instance state the truncation was meant to produce, `s_target` is the
scalar `0`, not a vector of length M = 2. -/
theorem c9_derived_quantities_not_length_M :
    init [1, 2] [1, 2, 3] [] (some [0, 0]) = .error .pandasIndexError ∧
    s_targetVal truncState = .int 0 ∧
    ∀ l : List Int, s_targetVal truncState ≠ .series l := by
  refine ⟨rfl, rfl, ?_⟩
  intro l h
  simp [s_targetVal, truncState, projection] at h

/-- Claim C10: `_projection` returns the Python scalar `0` for every signal
and every subspace; consequently, on every instance state, `s_target`,
`e_interf` and `e_noise` evaluate to the scalar `0` and `e_artif` to the
estimated signal unchanged. -/
theorem c10_projection_stub_consequences :
    (∀ signal subspace : PyVal, projection signal subspace = .int 0) ∧
    ∀ st : BeamState,
      s_targetVal st = .int 0 ∧
      e_interfVal st = some (.int 0) ∧
      e_noiseVal st = some (.int 0) ∧
      e_artifVal st = some (.series st.estimated) := by
  refine ⟨fun _ _ => rfl, fun st => ⟨rfl, rfl, rfl, ?_⟩⟩
  have h : e_artifVal st
      = some (PyVal.series (st.estimated.map (fun x => x - 0))) := rfl
  rw [h, map_sub_zero]

/-- Claim C3 witness: construction at a concrete argument list raises the
pandas indexing error, and the omitted-noise frame conversion at a concrete
length raises TypeError. -/
theorem c3_init_always_raises_witness :
    init [9] [9] [] none = .error .pandasIndexError ∧
    noiseToFrame none 9 = .error .typeError :=
  ⟨c3_init_always_raises.1 [9] [9] [] none, c3_init_always_raises.2 9⟩

/-- Claim C7 witness: the interference error on the zero-column-interference
state is not the length-2 zero vector. -/
theorem c7_zero_interference_not_zero_vector_witness :
    e_interfVal zeroInterfState ≠ some (.series [0, 0]) :=
  c7_zero_interference_not_zero_vector.2 [0, 0]

/-- Claim C9 witness: the target component on the truncation-scenario state
is not the length-2 zero vector. -/
theorem c9_derived_quantities_not_length_M_witness :
    s_targetVal truncState ≠ .series [0, 0] :=
  c9_derived_quantities_not_length_M.2.2 [0, 0]

/-- Claim C10 witness: the projection stub evaluated at concrete arguments,
and the artifact component on a concrete state. -/
theorem c10_projection_stub_consequences_witness :
    projection (.int 5) (.int 6) = .int 0 ∧
    e_artifVal demoState = some (.series [3, 4]) :=
  ⟨c10_projection_stub_consequences.1 (.int 5) (.int 6),
   (c10_projection_stub_consequences.2 demoState).2.2.2⟩

end BeamEval
